import Mathlib

/-!
Shallow embedding of the token-lifecycle core of the `appauth-react`
repository (files `src/hooks/Auth.ts`, `src/hooks/mutex.ts`), together with
proofs settling the frozen claims about its specification.

Conventions of the embedding:
* Wall-clock times (`Date.now()`, `issuedAt.getTime()`) are natural numbers
  of milliseconds.
* JavaScript string truthiness (`if (s)`) is modelled by `truthy`: an absent
  (`undefined`) string and the empty string are falsy.
* The floating-point product `expiresIn * 0.9` compared against integers is
  modelled exactly by scaling both sides of the comparison by 10
  (`issuedAt + expiresIn * 0.9 < now` becomes
  `10 * issuedAt + 9 * expiresIn < 10 * now`).
* React `useState` setters become functional record updates; the single
  browser event loop lets every synchronous block of the source be one
  atomic transition.
* Network effects (`performRefreshTokenRequest`, `performTokenRequest`,
  `performEndSessionRequest`) are modelled by their observable outcomes: the
  caller supplies the outcome of the request and the embedding records which
  requests were issued and which error reports (`onError` calls) were made.
-/

/-- JavaScript truthiness of an optional string: `undefined` and `""` are
falsy, every other string is truthy. -/
def truthy : Option String → Bool
  | none => false
  | some s => !(s == "")

/-- Leading decimal digits of a character list. -/
def takeDigits : List Char → List Char
  | [] => []
  | c :: cs => if c.isDigit then c :: takeDigits cs else []

/-- Numeric value of a list of decimal digits. -/
def digitsVal (ds : List Char) : Nat :=
  ds.foldl (fun a c => a * 10 + (c.toNat - 48)) 0

/-- Model of JavaScript `Number.parseInt(s, 10)`: skip leading whitespace,
accept an optional sign, read the longest run of leading decimal digits;
`none` models the `NaN` result (every numeric comparison with `NaN` is
false). -/
def parseIntJS (s : String) : Option Int :=
  let cs := s.data.dropWhile (fun c => c == ' ' || c == '\t' || c == '\n' || c == '\r')
  match cs with
  | '-' :: t =>
      let ds := takeDigits t
      if ds.isEmpty then none else some (-(digitsVal ds : Int))
  | '+' :: t =>
      let ds := takeDigits t
      if ds.isEmpty then none else some (digitsVal ds : Int)
  | _ =>
      let ds := takeDigits cs
      if ds.isEmpty then none else some (digitsVal ds : Int)

/-- The fields of an `@openid/appauth` `TokenResponse` used by `Auth.ts`.
`expiresIn` is in seconds, as reported by the provider. -/
structure TokenResponse where
  accessToken : Option String
  refreshToken : Option String
  idToken : Option String
  expiresIn : Option Nat
deriving Repr, DecidableEq

/-- The `RefreshTokenState` record of `Auth.ts`: the refresh token together
with the issue time (ms epoch) and the access-token lifetime in ms. -/
structure RefreshTokenState where
  token : String
  issuedAt : Nat
  expiresIn : Nat
deriving Repr, DecidableEq

/-- The mutable state of one `useAuth` instance: the four `useState` cells
`token`, `idToken`, `refreshToken` and the two readiness flags, plus the
single `AUTH_REFRESH_TOKEN` slot of the `LocalStorageBackend`. -/
structure AuthState where
  token : Option String
  idToken : Option String
  refreshToken : Option RefreshTokenState
  storedRefreshToken : Option String
  isAutoLoginDone : Bool
  isInitializationComplete : Bool
deriving Repr, DecidableEq

/-- The `ErrorAction` enum of `Auth.ts`. -/
inductive ErrorAction where
  | UNKNOWN
  | AUTO_LOGIN
  | REFRESH_TOKEN_REQUEST
  | FETCH_WELL_KNOWN
  | COMPLETE_AUTHORIZATION_REQUEST
  | HANDLE_AUTHORIZATION_RESPONSE
deriving Repr, DecidableEq

/-- An error thrown by a token request: either an appauth `AppAuthError`
(whose `message` carries the HTTP status code as a string on non-2xx
responses) or any other thrown value. -/
inductive RefreshError where
  | appAuthError (message : String)
  | otherError (message : String)
deriving Repr, DecidableEq

/-- Outcome of one network token request, supplied by the environment. -/
inductive RefreshOutcome where
  | success (resp : TokenResponse)
  | failure (err : RefreshError)
deriving Repr, DecidableEq

/-- The relevant endpoints of an appauth
`AuthorizationServiceConfiguration`. -/
structure ServiceConfiguration where
  endSessionEndpoint : Option String
  revocationEndpoint : Option String
deriving Repr, DecidableEq

/-- The expiry value stored by `setTokenResponse`:
`(oResponse.expiresIn || 3600) * 1000` — JavaScript `||` replaces the falsy
values `undefined` and `0` by the default `3600` seconds. -/
def expiresInMsOf : Option Nat → Nat
  | none => 3600 * 1000
  | some 0 => 3600 * 1000
  | some n => n * 1000

/-- Embedding of `setTokenResponse` (Auth.ts lines 117-129): if the response
has no (truthy) access token, do nothing; otherwise, if it carries a
(truthy) refresh token, store a fresh `RefreshTokenState` (issued now) and
persist the refresh token; finally set `token` and overwrite `idToken` with
the response's id token (possibly absent). -/
def setTokenResponse (now : Nat) (resp : TokenResponse) (st : AuthState) : AuthState :=
  if !(truthy resp.accessToken) then st
  else
    let st1 :=
      if truthy resp.refreshToken then
        { st with
            refreshToken := some ⟨resp.refreshToken.getD "", now, expiresInMsOf resp.expiresIn⟩,
            storedRefreshToken := resp.refreshToken }
      else st
    { st1 with token := resp.accessToken, idToken := resp.idToken }

/-- The client-error test of `_refreshAccessToken` (Auth.ts lines 147-149):
the error is an `AppAuthError` and `Number.parseInt(err.message, 10)` lies
in `[400, 500)`. A non-numeric message parses to `NaN`, whose comparisons
are all false. -/
def isClientError : RefreshError → Bool
  | .appAuthError msg =>
      match parseIntJS msg with
      | some sc => decide (400 ≤ sc) && decide (sc < 500)
      | none => false
  | .otherError _ => false

/-- The value `_refreshAccessToken` resolves with on success:
`{ token: response.accessToken, idToken: response.idToken }`. -/
structure RefreshResult where
  token : Option String
  idToken : Option String
deriving Repr, DecidableEq

/-- Observable effect of one settled `_refreshAccessToken` execution: the
resulting state, the `onError` reports made (in order), and the resolved
value (`none` models resolving with `undefined`). -/
structure RefreshStep where
  state : AuthState
  reports : List (RefreshError × ErrorAction)
  result : Option RefreshResult
deriving Repr, DecidableEq

/-- Embedding of `_refreshAccessToken` (Auth.ts lines 131-161). With no
resolved configuration it throws (`Except.error`). On a successful request
it applies `setTokenResponse` and resolves with the new tokens. On a failed
request it clears all token state and the persisted refresh token exactly
when the error is an HTTP client error (status 400-499), reports the error
with `ErrorAction.REFRESH_TOKEN_REQUEST` in every failure case, and
resolves with `undefined`. -/
def refreshAccessToken (configPresent : Bool) (savedRefreshToken : String)
    (now : Nat) (outcome : RefreshOutcome) (st : AuthState) :
    Except String RefreshStep :=
  if !configPresent then
    .error "called refresh too soon - you can check that with \"isReady\""
  else
    match outcome with
    | .success resp =>
        .ok ⟨setTokenResponse now resp st, [], some ⟨resp.accessToken, resp.idToken⟩⟩
    | .failure err =>
        let st' :=
          if isClientError err then
            { st with refreshToken := none, token := none, idToken := none,
                      storedRefreshToken := none }
          else st
        .ok ⟨st', [(err, ErrorAction.REFRESH_TOKEN_REQUEST)], none⟩

/-- The branch `checkToken` takes (Auth.ts lines 200-221): return
`undefined` without refreshing, await one guarded refresh, or fire one
guarded refresh in the background and return `undefined` at once. -/
inductive CheckDecision where
  | noop
  | syncRefresh (refreshTokenValue : String)
  | backgroundRefresh (refreshTokenValue : String)
deriving Repr, DecidableEq

/-- Embedding of `checkToken` (Auth.ts lines 200-221). With no refresh
record it returns immediately. Otherwise
`isExpired = issuedAt + expiresIn < now` and
`willExpire = issuedAt + expiresIn * 0.9 < now` (the latter scaled by 10 to
stay in integers); if neither `willExpire` nor `forceRefresh`, no-op; if
expired, refresh synchronously; else refresh in the background. -/
def checkToken (forceRefresh : Bool) (now : Nat) (st : AuthState) : CheckDecision :=
  match st.refreshToken with
  | none => .noop
  | some r =>
      let isExpired := decide (r.issuedAt + r.expiresIn < now)
      let willExpire := decide (10 * r.issuedAt + 9 * r.expiresIn < 10 * now)
      if !willExpire && !forceRefresh then .noop
      else if isExpired then .syncRefresh r.token
      else .backgroundRefresh r.token

/-- Number of invocations of the guarded refresh caused by one `checkToken`
call. -/
def refreshInvocations : CheckDecision → Nat
  | .noop => 0
  | .syncRefresh _ => 1
  | .backgroundRefresh _ => 1

/-- The value a `checkToken` call resolves with: only the synchronous-
refresh branch awaits the refresh and passes its result through; the no-op
and background branches resolve with `undefined`. -/
def checkTokenReturn (d : CheckDecision) (awaitedRefresh : Option RefreshResult) :
    Option RefreshResult :=
  match d with
  | .syncRefresh _ => awaitedRefresh
  | _ => none

/-- A remote call issued by `logout`. `endSessionRedirect` records the
end-session endpoint the redirect URL is built from (possibly absent) and
the `id_token_hint` passed along. -/
inductive LogoutCall where
  | endSessionRedirect (endpoint : Option String) (idTokenHint : Option String)
  | revokeToken (token : String)
deriving Repr, DecidableEq

/-- Observable effect of one `logout` call: resulting state, remote calls
issued, and the resolved value (`none` models `undefined`). -/
structure LogoutStep where
  state : AuthState
  calls : List LogoutCall
  result : Option Bool
deriving Repr, DecidableEq

/-- Embedding of `logout` (Auth.ts lines 333-352). It saves the current id
token, synchronously clears the three in-memory cells (the persisted
storage slot is not touched), returns `undefined` when the saved id token
is falsy or no configuration is resolved, and otherwise fires the
end-session redirect (not awaited) and returns `true`. -/
def logout (config : Option ServiceConfiguration) (st : AuthState) : LogoutStep :=
  let tmpIdToken := st.idToken
  let cleared := { st with refreshToken := none, token := none, idToken := none }
  match config with
  | none => ⟨cleared, [], none⟩
  | some cfg =>
      if !(truthy tmpIdToken) then ⟨cleared, [], none⟩
      else ⟨cleared, [.endSessionRedirect cfg.endSessionEndpoint tmpIdToken], some true⟩

/-- Observable effect of one run of the auto-login effect. -/
structure AutoLoginStep where
  state : AuthState
  reports : List (RefreshError × ErrorAction)
  refreshAttempted : Bool
deriving Repr, DecidableEq

/-- Embedding of the auto-login effect (Auth.ts lines 167-182). It reads the
persisted refresh token; if absent (falsy) or auto-login is already done it
just marks auto-login done. Otherwise, once a configuration is resolved, it
awaits one guarded refresh (whose settled effect is `refreshAccessToken`)
and marks auto-login done in the `finally` block; the effect itself reports
nothing — every failure report comes from `_refreshAccessToken`. -/
def autoLoginEffect (configPresent : Bool) (now : Nat) (outcome : RefreshOutcome)
    (st : AuthState) : AutoLoginStep :=
  let saved := st.storedRefreshToken
  if !(truthy saved) || st.isAutoLoginDone then
    ⟨{ st with isAutoLoginDone := true }, [], false⟩
  else if configPresent then
    match refreshAccessToken true (saved.getD "") now outcome st with
    | .ok step => ⟨{ step.state with isAutoLoginDone := true }, step.reports, true⟩
    | .error _ => ⟨st, [], true⟩
  else ⟨st, [], false⟩

/-- The `isReady` field of the state object returned by `useAuth`
(Auth.ts line 360): the conjunction of the two readiness flags. -/
def isReady (st : AuthState) : Bool :=
  st.isAutoLoginDone && st.isInitializationComplete

/-- Firing of the authorization listener callback installed by the
redirect-completion effect (Auth.ts lines 243-284): whether the callback
received an error and whether it received an authorization response. -/
structure AuthorizationFiring where
  hasError : Bool
  hasResponse : Bool
deriving Repr, DecidableEq

/-- What one firing of the listener does. -/
inductive ListenerEffect where
  | reportError
  | tokenExchange
  | nothing
deriving Repr, DecidableEq

/-- Embedding of the listener body (Auth.ts lines 243-284): on an error it
reports `HANDLE_AUTHORIZATION_RESPONSE`; then the guard commented "only run
it the first time" returns early when the captured `configuration` is not
truthy; then, if a response is present, it performs one token exchange
(`performTokenRequest`). -/
def listenerBody (capturedConfiguration : Option ServiceConfiguration)
    (f : AuthorizationFiring) : ListenerEffect :=
  if f.hasError then .reportError
  else if capturedConfiguration.isNone then .nothing
  else if f.hasResponse then .tokenExchange
  else .nothing

/-- The listener as actually installed: the enclosing effect returns early
unless `configuration` is truthy (Auth.ts line 234), so the captured
configuration is always present. -/
def installedListener (cfg : ServiceConfiguration) :
    AuthorizationFiring → ListenerEffect :=
  listenerBody (some cfg)

/-- Number of token-exchange network calls resulting from a sequence of
firings of the installed listener within one page load. -/
def exchangeCount (cfg : ServiceConfiguration) (fs : List AuthorizationFiring) : Nat :=
  (fs.map (installedListener cfg)).count .tokenExchange

/-- The state mutations `useAuth` can perform within one session, one
constructor per mutation site in `Auth.ts`:
`markAutoLoginDone` for `setIsAutoLoginDone(true)` (lines 171 and 178, the
only calls — the argument is always `true`); `markInitializationComplete`
for `setIsInitializationComplete(true)` (line 291, always `true`);
`applyTokenResponse` for `setTokenResponse` (lines 117-129);
`refreshClientErrorClear` for the 4xx clearing in `_refreshAccessToken`
(lines 151-154); `logoutClear` for the synchronous clearing in `logout`
(lines 337-339). -/
inductive SessionEvent where
  | markAutoLoginDone
  | markInitializationComplete
  | applyTokenResponse (now : Nat) (resp : TokenResponse)
  | refreshClientErrorClear
  | logoutClear
deriving Repr, DecidableEq

/-- One state mutation of the session. -/
def sessionStep (st : AuthState) : SessionEvent → AuthState
  | .markAutoLoginDone => { st with isAutoLoginDone := true }
  | .markInitializationComplete => { st with isInitializationComplete := true }
  | .applyTokenResponse now resp => setTokenResponse now resp st
  | .refreshClientErrorClear =>
      { st with refreshToken := none, token := none, idToken := none,
                storedRefreshToken := none }
  | .logoutClear => { st with refreshToken := none, token := none, idToken := none }

/-- The state of a fresh `useAuth` instance: every `useState` cell starts
empty and both readiness flags start `false` (Auth.ts lines 105-110);
`saved` is whatever the persistent storage slot holds from earlier
sessions. -/
def initialAuthState (saved : Option String) : AuthState :=
  ⟨none, none, none, saved, false, false⟩

/-- The session state after a sequence of mutations. -/
def sessionRun (saved : Option String) (evs : List SessionEvent) : AuthState :=
  evs.foldl sessionStep (initialAuthState saved)

/-- Decidable equality of `Except` values, needed to evaluate guard states
on concrete traces. -/
instance {ε ρ : Type} [DecidableEq ε] [DecidableEq ρ] : DecidableEq (Except ε ρ) := fun x y =>
  match x, y with
  | .error a, .error b =>
      if h : a = b then isTrue (by rw [h]) else isFalse (by intro hc; cases hc; exact h rfl)
  | .error _, .ok _ => isFalse (by intro hc; cases hc)
  | .ok _, .error _ => isFalse (by intro hc; cases hc)
  | .ok a, .ok b =>
      if h : a = b then isTrue (by rw [h]) else isFalse (by intro hc; cases hc; exact h rfl)

/-- State of one `singleEntry` guard instance (mutex.ts lines 7-24).
`current` is the `currentInvocation` variable, holding the identifier of
the in-flight execution of the wrapped `asyncFunc` when defined; `pending`
lists the executions of `asyncFunc` that have started and not yet settled,
with the arguments they were started with; `nextId` counts the executions
started; `waiters` maps each caller of the wrapped function to the
execution whose result it receives; `results` records settled executions. -/
structure GuardState (α ρ : Type) where
  current : Option Nat
  pending : List (Nat × α)
  nextId : Nat
  waiters : List (Nat × Nat)
  results : List (Nat × Except String ρ)
deriving Repr, DecidableEq

/-- A fresh guard: no in-flight execution, nothing started. -/
def GuardState.init {α ρ : Type} : GuardState α ρ := ⟨none, [], 0, [], []⟩

/-- Events of the guard semantics: a caller `cid` invokes the wrapped
function with `args`, or the in-flight execution settles with outcome `r`
(the settlement of the promise chain `asyncFunc(...).then(resolve)
.catch(reject).finally(reset)` is one atomic event: the shared promise
settles and `currentInvocation` is reset to `undefined`). -/
inductive GuardEvent (α ρ : Type) where
  | call (cid : Nat) (args : α)
  | settle (r : Except String ρ)
deriving Repr, DecidableEq

/-- Operational semantics of `singleEntry` (mutex.ts lines 9-23): a call
while `currentInvocation` is defined merely awaits it — it starts no
execution and its arguments are dropped; a call while it is undefined
starts a fresh execution of `asyncFunc` with the call's arguments and
publishes it as `currentInvocation`; a settlement delivers the outcome to
the shared promise and resets `currentInvocation`. -/
def guardStep {α ρ : Type} (st : GuardState α ρ) : GuardEvent α ρ → GuardState α ρ
  | .call cid args =>
      match st.current with
      | some e => { st with waiters := (cid, e) :: st.waiters }
      | none =>
          { current := some st.nextId,
            pending := (st.nextId, args) :: st.pending,
            nextId := st.nextId + 1,
            waiters := (cid, st.nextId) :: st.waiters,
            results := st.results }
  | .settle r =>
      match st.current with
      | some e =>
          { st with current := none,
                    pending := st.pending.filter (fun p => p.1 != e),
                    results := (e, r) :: st.results }
      | none => st

/-- Guard state reached by a sequence of events from a fresh guard. -/
def guardRun {α ρ : Type} (evs : List (GuardEvent α ρ)) : GuardState α ρ :=
  evs.foldl guardStep .init

/-- The outcome a caller of the wrapped function receives: the recorded
result of the execution it was attached to. -/
def callerResult {α ρ : Type} (st : GuardState α ρ) (cid : Nat) :
    Option (Except String ρ) :=
  match st.waiters.lookup cid with
  | some e => st.results.lookup e
  | none => none

/-- Structural invariant of the guard: every pending execution is the
published `currentInvocation`, and at most one execution is pending. -/
def GuardInv {α ρ : Type} (st : GuardState α ρ) : Prop :=
  (∀ p ∈ st.pending, st.current = some p.1) ∧ st.pending.length ≤ 1

/-- `setTokenResponse` never touches the readiness flags. -/
theorem setTokenResponse_flags (now : Nat) (resp : TokenResponse) (st : AuthState) :
    (setTokenResponse now resp st).isAutoLoginDone = st.isAutoLoginDone
    ∧ (setTokenResponse now resp st).isInitializationComplete
        = st.isInitializationComplete := by
  by_cases h1 : truthy resp.accessToken <;> by_cases h2 : truthy resp.refreshToken <;>
    simp [setTokenResponse, h1, h2]

/-- Every session mutation preserves a true `isAutoLoginDone` flag. -/
theorem sessionStep_autoLoginDone_mono (st : AuthState) (ev : SessionEvent)
    (h : st.isAutoLoginDone = true) : (sessionStep st ev).isAutoLoginDone = true := by
  cases ev with
  | applyTokenResponse now resp => rw [sessionStep, (setTokenResponse_flags now resp st).1]; exact h
  | markAutoLoginDone => rfl
  | markInitializationComplete => simpa [sessionStep] using h
  | refreshClientErrorClear => simpa [sessionStep] using h
  | logoutClear => simpa [sessionStep] using h

/-- Every session mutation preserves a true `isInitializationComplete` flag. -/
theorem sessionStep_initializationComplete_mono (st : AuthState) (ev : SessionEvent)
    (h : st.isInitializationComplete = true) :
    (sessionStep st ev).isInitializationComplete = true := by
  cases ev with
  | applyTokenResponse now resp => rw [sessionStep, (setTokenResponse_flags now resp st).2]; exact h
  | markAutoLoginDone => simpa [sessionStep] using h
  | markInitializationComplete => rfl
  | refreshClientErrorClear => simpa [sessionStep] using h
  | logoutClear => simpa [sessionStep] using h

/-- A true `isAutoLoginDone` flag survives any further sequence of session
mutations. -/
theorem foldl_autoLoginDone_mono (l : List SessionEvent) :
    ∀ st : AuthState, st.isAutoLoginDone = true →
      (l.foldl sessionStep st).isAutoLoginDone = true := by
  induction l with
  | nil => intro st h; exact h
  | cons ev evs ih =>
      intro st h
      exact ih (sessionStep st ev) (sessionStep_autoLoginDone_mono st ev h)

/-- A true `isInitializationComplete` flag survives any further sequence of
session mutations. -/
theorem foldl_initializationComplete_mono (l : List SessionEvent) :
    ∀ st : AuthState, st.isInitializationComplete = true →
      (l.foldl sessionStep st).isInitializationComplete = true := by
  induction l with
  | nil => intro st h; exact h
  | cons ev evs ih =>
      intro st h
      exact ih (sessionStep st ev) (sessionStep_initializationComplete_mono st ev h)

/-- Running an extended trace is running the extension from the reached
state. -/
theorem sessionRun_append (saved : Option String) (evs ext : List SessionEvent) :
    sessionRun saved (evs ++ ext) = ext.foldl sessionStep (sessionRun saved evs) := by
  simp [sessionRun, List.foldl_append]

/-- One guard transition preserves the guard invariant. -/
theorem guardStep_inv {α ρ : Type} (st : GuardState α ρ) (ev : GuardEvent α ρ)
    (h : GuardInv st) : GuardInv (guardStep st ev) := by
  obtain ⟨h1, h2⟩ := h
  cases ev with
  | call cid args =>
      cases hc : st.current with
      | some e =>
          refine ⟨?_, ?_⟩
          · intro p hp
            simp only [guardStep, hc] at hp ⊢
            have hq := h1 p hp
            rw [hc] at hq
            exact hq
          · simpa [guardStep, hc] using h2
      | none =>
          have hnil : st.pending = [] := by
            cases hp : st.pending with
            | nil => rfl
            | cons q qs =>
                have hq := h1 q (by rw [hp]; exact List.mem_cons_self q qs)
                rw [hc] at hq
                cases hq
          refine ⟨?_, ?_⟩
          · intro p hp
            simp only [guardStep, hc, hnil, List.mem_singleton] at hp
            simp [guardStep, hc, hp]
          · simp [guardStep, hc, hnil]
  | settle r =>
      cases hc : st.current with
      | some e =>
          have hnil : st.pending.filter (fun p => p.1 != e) = [] := by
            rw [List.filter_eq_nil_iff]
            intro p hp
            have hq := h1 p hp
            rw [hc] at hq
            simp [Option.some.injEq] at hq
            simp [hq]
          refine ⟨?_, ?_⟩
          · intro p hp
            simp only [guardStep, hc, hnil] at hp
            cases hp
          · simp [guardStep, hc, hnil]
      | none =>
          exact ⟨fun p hp => by simpa [guardStep, hc] using h1 p (by simpa [guardStep, hc] using hp),
                 by simpa [guardStep, hc] using h2⟩

/-- The guard invariant holds in every reachable guard state. -/
theorem guardRun_inv {α ρ : Type} (evs : List (GuardEvent α ρ)) :
    GuardInv (guardRun evs) := by
  have h : ∀ (l : List (GuardEvent α ρ)) (st : GuardState α ρ),
      GuardInv st → GuardInv (l.foldl guardStep st) := by
    intro l
    induction l with
    | nil => intro st hst; exact hst
    | cons ev evs ih => intro st hst; exact ih (guardStep st ev) (guardStep_inv st ev hst)
  refine h evs .init ⟨?_, ?_⟩
  · intro p hp
    cases hp
  · simp [GuardState.init]

/-- Claim C2: for every refresh attempt that fails, a failure carrying an
HTTP status in the client-error range 400-499 clears all token state
(access token, id token, refresh record) and removes the persisted refresh
token from storage, while every other failure (5xx, network) is reported to
the error sink with kind `REFRESH_TOKEN_REQUEST` and leaves the token state
and the persisted storage completely unchanged. -/
theorem refresh_failure_policy (rt : String) (now : Nat) (err : RefreshError)
    (st : AuthState) (step : RefreshStep)
    (h : refreshAccessToken true rt now (.failure err) st = .ok step) :
    (isClientError err = true →
        step.state.token = none ∧ step.state.idToken = none
        ∧ step.state.refreshToken = none ∧ step.state.storedRefreshToken = none)
    ∧ (isClientError err = false →
        step.reports = [(err, ErrorAction.REFRESH_TOKEN_REQUEST)] ∧ step.state = st) := by
  have hstep : step =
      ⟨if isClientError err then
          { st with refreshToken := none, token := none, idToken := none,
                    storedRefreshToken := none }
        else st,
       [(err, ErrorAction.REFRESH_TOKEN_REQUEST)], none⟩ := by
    simp only [refreshAccessToken, Bool.not_true, Bool.false_eq_true, if_false,
      Except.ok.injEq] at h
    exact h.symm
  subst hstep
  by_cases hce : isClientError err <;> simp [hce]

/-- Witness for `refresh_failure_policy` at the concrete 401 failure. -/
theorem refresh_failure_policy_witness :
    refreshAccessToken true "R" 7 (.failure (.appAuthError "401"))
        ⟨some "A", some "I", some ⟨"R", 0, 1000⟩, some "R", true, true⟩
      = .ok ⟨⟨none, none, none, none, true, true⟩,
             [(.appAuthError "401", ErrorAction.REFRESH_TOKEN_REQUEST)], none⟩
    ∧ ((isClientError (.appAuthError "401") = true →
          (⟨⟨none, none, none, none, true, true⟩,
            [(.appAuthError "401", ErrorAction.REFRESH_TOKEN_REQUEST)],
            none⟩ : RefreshStep).state.token = none
          ∧ (⟨⟨none, none, none, none, true, true⟩,
              [(.appAuthError "401", ErrorAction.REFRESH_TOKEN_REQUEST)],
              none⟩ : RefreshStep).state.idToken = none
          ∧ (⟨⟨none, none, none, none, true, true⟩,
              [(.appAuthError "401", ErrorAction.REFRESH_TOKEN_REQUEST)],
              none⟩ : RefreshStep).state.refreshToken = none
          ∧ (⟨⟨none, none, none, none, true, true⟩,
              [(.appAuthError "401", ErrorAction.REFRESH_TOKEN_REQUEST)],
              none⟩ : RefreshStep).state.storedRefreshToken = none)
        ∧ (isClientError (.appAuthError "401") = false →
            (⟨⟨none, none, none, none, true, true⟩,
              [(.appAuthError "401", ErrorAction.REFRESH_TOKEN_REQUEST)],
              none⟩ : RefreshStep).reports
              = [(.appAuthError "401", ErrorAction.REFRESH_TOKEN_REQUEST)]
            ∧ (⟨⟨none, none, none, none, true, true⟩,
                [(.appAuthError "401", ErrorAction.REFRESH_TOKEN_REQUEST)],
                none⟩ : RefreshStep).state
              = ⟨some "A", some "I", some ⟨"R", 0, 1000⟩, some "R", true, true⟩)) :=
  ⟨by decide,
   refresh_failure_policy "R" 7 (.appAuthError "401")
     ⟨some "A", some "I", some ⟨"R", 0, 1000⟩, some "R", true, true⟩
     ⟨⟨none, none, none, none, true, true⟩,
      [(.appAuthError "401", ErrorAction.REFRESH_TOKEN_REQUEST)], none⟩
     (by decide)⟩

/-- Claim C10: a `setTokenResponse` call whose response carries a (truthy)
access token but no (truthy) refresh token updates only the access-token
and id-token cells — the id token is overwritten with the response's id
token even when that is absent — and leaves the refresh record, the
persisted `AUTH_REFRESH_TOKEN` slot and the readiness flags unchanged. -/
theorem setTokenResponse_no_refresh_frame (now : Nat) (resp : TokenResponse)
    (st : AuthState) (hacc : truthy resp.accessToken = true)
    (hrt : truthy resp.refreshToken = false) :
    setTokenResponse now resp st
      = { st with token := resp.accessToken, idToken := resp.idToken } := by
  simp [setTokenResponse, hacc, hrt]

/-- Witness for `setTokenResponse_no_refresh_frame`: a response with only an
access token leaves the held refresh record and storage slot intact and
erases the id token. -/
theorem setTokenResponse_no_refresh_frame_witness :
    truthy (some "A2") = true
    ∧ truthy (none : Option String) = false
    ∧ setTokenResponse 5 ⟨some "A2", none, none, some 100⟩
        ⟨some "A1", some "I1", some ⟨"R1", 0, 1000⟩, some "R1", true, true⟩
      = { (⟨some "A1", some "I1", some ⟨"R1", 0, 1000⟩, some "R1", true, true⟩ : AuthState)
            with token := some "A2", idToken := none } :=
  ⟨by decide, by decide,
   setTokenResponse_no_refresh_frame 5 ⟨some "A2", none, none, some 100⟩
     ⟨some "A1", some "I1", some ⟨"R1", 0, 1000⟩, some "R1", true, true⟩
     (by decide) (by decide)⟩

/-- Claim C6: a `checkToken(forceRefresh)` call made while a refresh record
is held, with `isExpired = issuedAt + expiresInMs < now` and
`willExpire = issuedAt + expiresInMs * 0.9 < now` (the latter stated with
both sides scaled by 10): if neither `willExpire` nor `forceRefresh`, it is
a no-op resolving with `undefined` and invoking no refresh; if `isExpired`,
it awaits one synchronous refresh whose result the caller receives; if
`willExpire` or `forceRefresh` holds but not `isExpired`, it fires one
background refresh and resolves with `undefined` without awaiting it. -/
theorem checkToken_expiry_policy (force : Bool) (now : Nat) (st : AuthState)
    (r : RefreshTokenState) (h : st.refreshToken = some r) :
    (¬(10 * r.issuedAt + 9 * r.expiresIn < 10 * now) → force = false →
        checkToken force now st = .noop
        ∧ refreshInvocations (checkToken force now st) = 0
        ∧ (∀ ar : Option RefreshResult, checkTokenReturn (checkToken force now st) ar = none))
    ∧ (r.issuedAt + r.expiresIn < now →
        checkToken force now st = .syncRefresh r.token
        ∧ refreshInvocations (checkToken force now st) = 1
        ∧ (∀ ar : Option RefreshResult, checkTokenReturn (checkToken force now st) ar = ar))
    ∧ ((10 * r.issuedAt + 9 * r.expiresIn < 10 * now ∨ force = true) →
        ¬(r.issuedAt + r.expiresIn < now) →
        checkToken force now st = .backgroundRefresh r.token
        ∧ refreshInvocations (checkToken force now st) = 1
        ∧ (∀ ar : Option RefreshResult, checkTokenReturn (checkToken force now st) ar = none)) := by
  refine ⟨?_, ?_, ?_⟩
  · intro hw hf
    have hdec : checkToken force now st = .noop := by
      simp [checkToken, h, hw, hf]
    exact ⟨hdec, by simp [hdec, refreshInvocations], fun ar => by simp [hdec, checkTokenReturn]⟩
  · intro hexp
    have hwill : 10 * r.issuedAt + 9 * r.expiresIn < 10 * now := by omega
    have hdec : checkToken force now st = .syncRefresh r.token := by
      simp [checkToken, h, hwill, hexp]
    exact ⟨hdec, by simp [hdec, refreshInvocations], fun ar => by simp [hdec, checkTokenReturn]⟩
  · intro hwf hnexp
    have hdec : checkToken force now st = .backgroundRefresh r.token := by
      rcases hwf with hw | hf
      · simp [checkToken, h, hw, hnexp]
      · simp [checkToken, h, hf, hnexp]
    exact ⟨hdec, by simp [hdec, refreshInvocations], fun ar => by simp [hdec, checkTokenReturn]⟩

/-- Witness for `checkToken_expiry_policy` at a fresh token: with
`issuedAt = 0`, `expiresIn = 1000` ms and `now = 50`, neither expiry bound
is passed and `checkToken(false)` is a no-op. -/
theorem checkToken_expiry_policy_witness :
    (⟨some "A", none, some ⟨"R", 0, 1000⟩, some "R", true, true⟩ : AuthState).refreshToken
      = some ⟨"R", 0, 1000⟩
    ∧ ((¬(10 * 0 + 9 * 1000 < 10 * 50) → false = false →
          checkToken false 50 ⟨some "A", none, some ⟨"R", 0, 1000⟩, some "R", true, true⟩ = .noop
          ∧ refreshInvocations
              (checkToken false 50 ⟨some "A", none, some ⟨"R", 0, 1000⟩, some "R", true, true⟩) = 0
          ∧ (∀ ar : Option RefreshResult,
              checkTokenReturn
                (checkToken false 50 ⟨some "A", none, some ⟨"R", 0, 1000⟩, some "R", true, true⟩)
                ar = none))
        ∧ (0 + 1000 < 50 →
            checkToken false 50 ⟨some "A", none, some ⟨"R", 0, 1000⟩, some "R", true, true⟩
              = .syncRefresh "R"
            ∧ refreshInvocations
                (checkToken false 50 ⟨some "A", none, some ⟨"R", 0, 1000⟩, some "R", true, true⟩)
                = 1
            ∧ (∀ ar : Option RefreshResult,
                checkTokenReturn
                  (checkToken false 50
                    ⟨some "A", none, some ⟨"R", 0, 1000⟩, some "R", true, true⟩) ar = ar))
        ∧ ((10 * 0 + 9 * 1000 < 10 * 50 ∨ false = true) → ¬(0 + 1000 < 50) →
            checkToken false 50 ⟨some "A", none, some ⟨"R", 0, 1000⟩, some "R", true, true⟩
              = .backgroundRefresh "R"
            ∧ refreshInvocations
                (checkToken false 50 ⟨some "A", none, some ⟨"R", 0, 1000⟩, some "R", true, true⟩)
                = 1
            ∧ (∀ ar : Option RefreshResult,
                checkTokenReturn
                  (checkToken false 50
                    ⟨some "A", none, some ⟨"R", 0, 1000⟩, some "R", true, true⟩) ar = none))) :=
  ⟨rfl, checkToken_expiry_policy false 50
    ⟨some "A", none, some ⟨"R", 0, 1000⟩, some "R", true, true⟩ ⟨"R", 0, 1000⟩ rfl⟩

/-- Counterexample to claim C7 as stated: `checkToken(true)` in a state
holding no refresh record triggers no refresh at all and returns
`undefined`, while the claim demands exactly one refresh in every state. -/
theorem checkToken_force_counterexample :
    checkToken true 1000 ⟨some "acc", none, none, none, true, true⟩ = .noop
    ∧ refreshInvocations (checkToken true 1000 ⟨some "acc", none, none, none, true, true⟩)
        = 0 := by
  exact ⟨rfl, rfl⟩

/-- Claim C7 as amended: whenever a refresh record is held, `checkToken(true)`
invokes the guarded refresh exactly once regardless of the expiry status of
the current token; with no refresh record held it invokes none. -/
theorem checkToken_force_refresh (now : Nat) (st : AuthState) (r : RefreshTokenState)
    (h : st.refreshToken = some r) :
    refreshInvocations (checkToken true now st) = 1 := by
  by_cases hexp : r.issuedAt + r.expiresIn < now <;>
    simp [checkToken, h, hexp, refreshInvocations]

/-- Witness for `checkToken_force_refresh` on a token nowhere near expiry. -/
theorem checkToken_force_refresh_witness :
    (⟨some "A", none, some ⟨"R", 0, 3600000⟩, some "R", true, true⟩ : AuthState).refreshToken
      = some ⟨"R", 0, 3600000⟩
    ∧ refreshInvocations
        (checkToken true 50 ⟨some "A", none, some ⟨"R", 0, 3600000⟩, some "R", true, true⟩)
        = 1 :=
  ⟨rfl, checkToken_force_refresh 50
    ⟨some "A", none, some ⟨"R", 0, 3600000⟩, some "R", true, true⟩ ⟨"R", 0, 3600000⟩ rfl⟩

/-- Counterexample to claim C3 as stated: at a configuration advertising no
end-session endpoint but a revocation endpoint, and a state holding an id
token and an access token, the claim requires a revocation call and the
result `false`; the code instead issues the end-session redirect (built
from the absent endpoint) and returns `true`, and never calls the
revocation endpoint. -/
theorem logout_endpoint_counterexample :
    logout (some ⟨none, some "https://op.example/revoke"⟩)
        ⟨some "acc", some "id", none, some "R", true, true⟩
      = ⟨⟨none, none, none, some "R", true, true⟩,
         [.endSessionRedirect none (some "id")], some true⟩ := by
  rfl

/-- Claim C3 as amended: every logout call made while a truthy id token and
a resolved configuration are held issues the end-session redirect with the
held id token as `id_token_hint` and returns `true`, regardless of which
endpoints the configuration advertises; no revocation call is ever made. -/
theorem logout_with_idToken (cfg : ServiceConfiguration) (st : AuthState)
    (h : truthy st.idToken = true) :
    logout (some cfg) st
      = ⟨{ st with refreshToken := none, token := none, idToken := none },
         [.endSessionRedirect cfg.endSessionEndpoint st.idToken], some true⟩ := by
  simp [logout, h]

/-- Witness for `logout_with_idToken` at a configuration advertising an
end-session endpoint. -/
theorem logout_with_idToken_witness :
    truthy (⟨some "acc", some "id", none, some "R", true, true⟩ : AuthState).idToken = true
    ∧ logout (some ⟨some "https://op.example/endsession", none⟩)
        ⟨some "acc", some "id", none, some "R", true, true⟩
      = ⟨{ (⟨some "acc", some "id", none, some "R", true, true⟩ : AuthState) with
             refreshToken := none, token := none, idToken := none },
         [.endSessionRedirect (some "https://op.example/endsession") (some "id")], some true⟩ :=
  ⟨by decide,
   logout_with_idToken ⟨some "https://op.example/endsession", none⟩
     ⟨some "acc", some "id", none, some "R", true, true⟩ (by decide)⟩

/-- Counterexample to claim C4 as stated: after a logout from a state whose
persistent storage slot holds a refresh token (and no tokens in memory),
the persisted refresh token is still present — the claim requires it to be
removed from durable storage. -/
theorem logout_storage_counterexample :
    (logout none ⟨none, none, none, some "R", false, false⟩).state.storedRefreshToken
      = some "R" := by
  rfl

/-- Claim C4 as amended: every logout call — also one made while no tokens
are held — clears the in-memory access token, id token and refresh record
synchronously and unconditionally (the model's single `logout` step, whose
emitted end-session call is not awaited), but the persisted refresh token
in durable storage is left unchanged, not removed. -/
theorem logout_clears_memory_not_storage (config : Option ServiceConfiguration)
    (st : AuthState) :
    (logout config st).state.token = none
    ∧ (logout config st).state.idToken = none
    ∧ (logout config st).state.refreshToken = none
    ∧ (logout config st).state.storedRefreshToken = st.storedRefreshToken
    ∧ (logout config st).state.isAutoLoginDone = st.isAutoLoginDone
    ∧ (logout config st).state.isInitializationComplete = st.isInitializationComplete := by
  cases config with
  | none => simp [logout]
  | some cfg => by_cases h : truthy st.idToken <;> simp [logout, h]

/-- Counterexample to claim C8 as stated: a failing startup auto-login
refresh (persisted token `"R"`, resolved configuration, network failure) is
reported, but with kind `REFRESH_TOKEN_REQUEST`, which differs from the
`AUTO_LOGIN` kind the claim requires. -/
theorem autoLogin_report_counterexample :
    (autoLoginEffect true 0 (.failure (.otherError "network down"))
        ⟨none, none, none, some "R", false, false⟩).reports
      = [(.otherError "network down", ErrorAction.REFRESH_TOKEN_REQUEST)]
    ∧ ErrorAction.REFRESH_TOKEN_REQUEST ≠ ErrorAction.AUTO_LOGIN := by
  exact ⟨rfl, by decide⟩

/-- Claim C8 as amended: every failure of the startup auto-login refresh
attempt (triggered by a truthy persisted refresh token while auto-login is
not yet done and a configuration is resolved) is reported to the error sink
with kind `REFRESH_TOKEN_REQUEST` — the report comes from
`_refreshAccessToken`; the `AUTO_LOGIN` kind is never emitted. Auto-login
is still marked done afterwards. -/
theorem autoLogin_failure_report (now : Nat) (err : RefreshError) (st : AuthState)
    (hsaved : truthy st.storedRefreshToken = true) (hdone : st.isAutoLoginDone = false) :
    (autoLoginEffect true now (.failure err) st).reports
      = [(err, ErrorAction.REFRESH_TOKEN_REQUEST)]
    ∧ (autoLoginEffect true now (.failure err) st).refreshAttempted = true
    ∧ (autoLoginEffect true now (.failure err) st).state.isAutoLoginDone = true := by
  simp [autoLoginEffect, hsaved, hdone, refreshAccessToken]

/-- Witness for `autoLogin_failure_report` at a concrete 500 failure. -/
theorem autoLogin_failure_report_witness :
    truthy (⟨none, none, none, some "R", false, false⟩ : AuthState).storedRefreshToken = true
    ∧ (⟨none, none, none, some "R", false, false⟩ : AuthState).isAutoLoginDone = false
    ∧ (autoLoginEffect true 3 (.failure (.appAuthError "500"))
        ⟨none, none, none, some "R", false, false⟩).reports
      = [(.appAuthError "500", ErrorAction.REFRESH_TOKEN_REQUEST)]
    ∧ (autoLoginEffect true 3 (.failure (.appAuthError "500"))
        ⟨none, none, none, some "R", false, false⟩).refreshAttempted = true
    ∧ (autoLoginEffect true 3 (.failure (.appAuthError "500"))
        ⟨none, none, none, some "R", false, false⟩).state.isAutoLoginDone = true := by
  have h := autoLogin_failure_report 3 (.appAuthError "500")
    ⟨none, none, none, some "R", false, false⟩ (by decide) (by decide)
  exact ⟨by decide, by decide, h.1, h.2.1, h.2.2⟩

/-- Claim C5, evaluated at its failing input: two firings of the installed
redirect-completion listener for the same pending authorization response
(no error, response present) perform two token exchanges, not one — the
guard commented "only run it the first time" tests the captured
`configuration`, which is always truthy when the listener is installed, so
it never blocks a repeated firing. -/
theorem listener_double_firing_two_exchanges :
    exchangeCount ⟨none, none⟩ [⟨false, true⟩, ⟨false, true⟩] = 2
    ∧ installedListener ⟨none, none⟩ ⟨false, true⟩ = .tokenExchange := by
  exact ⟨rfl, rfl⟩

/-- Claim C9: in every reachable session state, `isReady` is the conjunction
of `isAutoLoginDone` and `isInitializationComplete`; both flags start false
and, once true, survive every further session mutation, so each transitions
to true at most once, never reverts, and `isReady`, once true, remains true
for the rest of the session. -/
theorem isReady_conjunction_monotone (saved : Option String)
    (evs ext : List SessionEvent) :
    isReady (sessionRun saved evs)
      = ((sessionRun saved evs).isAutoLoginDone
          && (sessionRun saved evs).isInitializationComplete)
    ∧ (initialAuthState saved).isAutoLoginDone = false
    ∧ (initialAuthState saved).isInitializationComplete = false
    ∧ ((sessionRun saved evs).isAutoLoginDone = true →
        (sessionRun saved (evs ++ ext)).isAutoLoginDone = true)
    ∧ ((sessionRun saved evs).isInitializationComplete = true →
        (sessionRun saved (evs ++ ext)).isInitializationComplete = true)
    ∧ (isReady (sessionRun saved evs) = true →
        isReady (sessionRun saved (evs ++ ext)) = true) := by
  refine ⟨rfl, rfl, rfl, ?_, ?_, ?_⟩
  · intro h
    rw [sessionRun_append]
    exact foldl_autoLoginDone_mono ext _ h
  · intro h
    rw [sessionRun_append]
    exact foldl_initializationComplete_mono ext _ h
  · intro h
    rw [isReady, Bool.and_eq_true] at h
    rw [sessionRun_append, isReady, Bool.and_eq_true]
    exact ⟨foldl_autoLoginDone_mono ext _ h.1,
           foldl_initializationComplete_mono ext _ h.2⟩

/-- Witness for `isReady_conjunction_monotone`: after both readiness events
have fired, a later logout leaves `isReady` true. -/
theorem isReady_conjunction_monotone_witness :
    isReady (sessionRun none
      [SessionEvent.markAutoLoginDone, SessionEvent.markInitializationComplete]) = true
    ∧ isReady (sessionRun none
      ([SessionEvent.markAutoLoginDone, SessionEvent.markInitializationComplete]
        ++ [SessionEvent.logoutClear])) = true :=
  ⟨by decide,
   (isReady_conjunction_monotone none
     [SessionEvent.markAutoLoginDone, SessionEvent.markInitializationComplete]
     [SessionEvent.logoutClear]).2.2.2.2.2 (by decide)⟩

/-- Claim C1: for the `singleEntry` guard wrapping an async function — the
guarded refresh shared by the `checkToken`, timer and auto-login triggers —
in every reachable guard state at most one execution of the wrapped
function is in flight; a call made while execution `e` is in flight starts
no new execution and merely attaches the caller to `e`, its own arguments
dropped; once the in-flight execution settles (success or failure) the
guard is reset, so the next call starts a fresh execution with its own
arguments; and the settled outcome — also a failure — is delivered
identically to every caller attached to `e`. -/
theorem singleEntry_concurrency_guard {α ρ : Type} (evs : List (GuardEvent α ρ))
    (st : GuardState α ρ) (cid c1 c2 e : Nat) (a : α) (r : Except String ρ)
    (hst : st = guardRun evs) (hcur : st.current = some e)
    (hw1 : st.waiters.lookup c1 = some e) (hw2 : st.waiters.lookup c2 = some e) :
    st.pending.length ≤ 1
    ∧ guardStep st (.call cid a) = { st with waiters := (cid, e) :: st.waiters }
    ∧ (guardStep st (.settle r)).current = none
    ∧ guardStep (guardStep st (.settle r)) (.call cid a)
        = ⟨some st.nextId, [(st.nextId, a)], st.nextId + 1,
           (cid, st.nextId) :: st.waiters, (e, r) :: st.results⟩
    ∧ callerResult (guardStep st (.settle r)) c1 = some r
    ∧ callerResult (guardStep st (.settle r)) c2 = some r := by
  obtain ⟨h1, h2⟩ : GuardInv st := hst ▸ guardRun_inv evs
  have hnil : st.pending.filter (fun p => p.1 != e) = [] := by
    rw [List.filter_eq_nil_iff]
    intro p hp
    have hq := h1 p hp
    rw [hcur] at hq
    rw [Option.some.injEq] at hq
    subst hq
    simp
  have hsettle : guardStep st (.settle r)
      = ⟨none, [], st.nextId, st.waiters, (e, r) :: st.results⟩ := by
    simp [guardStep, hcur, hnil]
  refine ⟨h2, ?_, ?_, ?_, ?_, ?_⟩
  · simp [guardStep, hcur]
  · rw [hsettle]
  · rw [hsettle]
    simp [guardStep]
  · rw [hsettle]
    simp [callerResult, hw1, List.lookup]
  · rw [hsettle]
    simp [callerResult, hw2, List.lookup]

/-- Witness for `singleEntry_concurrency_guard`: the guard state reached by
one call (caller 0, argument 5), with a second call (caller 1, argument 7)
and a failing settlement. -/
theorem singleEntry_concurrency_guard_witness :
    (⟨some 0, [(0, 5)], 1, [(0, 0)], []⟩ : GuardState Nat Nat)
      = guardRun [.call 0 5]
    ∧ ((⟨some 0, [(0, 5)], 1, [(0, 0)], []⟩ : GuardState Nat Nat).pending.length ≤ 1
      ∧ guardStep (⟨some 0, [(0, 5)], 1, [(0, 0)], []⟩ : GuardState Nat Nat) (.call 1 7)
          = { (⟨some 0, [(0, 5)], 1, [(0, 0)], []⟩ : GuardState Nat Nat) with
                waiters := (1, 0) :: [(0, 0)] }
      ∧ (guardStep (⟨some 0, [(0, 5)], 1, [(0, 0)], []⟩ : GuardState Nat Nat)
          (.settle (.error "boom"))).current = none
      ∧ guardStep
          (guardStep (⟨some 0, [(0, 5)], 1, [(0, 0)], []⟩ : GuardState Nat Nat)
            (.settle (.error "boom")))
          (.call 1 7)
          = ⟨some 1, [(1, 7)], 2, [(1, 1), (0, 0)], [(0, .error "boom")]⟩
      ∧ callerResult
          (guardStep (⟨some 0, [(0, 5)], 1, [(0, 0)], []⟩ : GuardState Nat Nat)
            (.settle (.error "boom"))) 0
          = some (.error "boom")
      ∧ callerResult
          (guardStep (⟨some 0, [(0, 5)], 1, [(0, 0)], []⟩ : GuardState Nat Nat)
            (.settle (.error "boom"))) 0
          = some (.error "boom")) :=
  ⟨by decide,
   singleEntry_concurrency_guard [.call 0 5] ⟨some 0, [(0, 5)], 1, [(0, 0)], []⟩
     1 0 0 0 7 (.error "boom") (by decide) (by decide) (by decide) (by decide)⟩
